import Mathlib

/-!
Verification development for the CareerBuilderHelperAgentic repository
(src/agent.py): a shallow embedding of the shared state object
(`CareerState`), the seven concrete pipeline agents, the orchestrator loop
of `run_career_builder_helper`, and the retry configuration, together with
theorems settling the specification's claims.

Conventions of the embedding:
* Python values that can appear in the state are modelled by `PyVal`
  (None, str, and dict-of-str values are the only ones the program uses).
* In-place mutation is modelled by explicit state passing.
* A step's `execute` returns a `StepOutcome`: either a normal return of a
  result string together with the (possibly mutated) state, or a raised
  Python exception together with the state at the point of the raise.
* Logging is an observability side effect the spec excludes from the
  correctness contract; it is not modelled, except for the diagnostics of
  `CareerState.update_state`, which claim C1 is about (those are returned
  as a list of warning strings).
-/

set_option maxRecDepth 8000

/-- The ASCII apostrophe, used when rendering Python string reprs. -/
def pyQuote : String := String.singleton (Char.ofNat 39)

/-- Values the program stores in the shared state: Python `None`, `str`,
and `dict[str, str]` (the only dict in the program maps strings to
strings). -/
inductive PyVal where
  | pyNone
  | pyStr (s : String)
  | pyDict (entries : List (String × String))
deriving Repr, DecidableEq

/-- Python truthiness (`bool(v)`) restricted to the values of `PyVal`:
`None` is falsy, a string is truthy iff nonempty, a dict is truthy iff
nonempty. This is what `if not interest:`-style checks in the agents
evaluate. -/
def truthy : PyVal → Bool
  | .pyNone => false
  | .pyStr s => !s.isEmpty
  | .pyDict d => !d.isEmpty

/-- Python `str(v)` for the values of `PyVal`, as used by f-string
interpolation. -/
def pyStrOf : PyVal → String
  | .pyNone => "None"
  | .pyStr s => s
  | .pyDict d =>
    "\x7b" ++
      String.intercalate ", "
        (d.map (fun kv => pyQuote ++ kv.1 ++ pyQuote ++ ": " ++ pyQuote ++ kv.2 ++ pyQuote)) ++
      "\x7d"

/-- Python exceptions the embedded code can raise. -/
inductive PyErr where
  | typeError
  | keyError
  | attributeError
  | notImplementedError
deriving Repr, DecidableEq

/-- Python subscripting `v[k]` with a string key, as in
`self.state.user_location['city']`: a `TypeError` on `None` or a string,
a `KeyError` on a dict missing the key. -/
def subscript : PyVal → String → Except PyErr String
  | .pyDict d, k =>
    match d.lookup k with
    | some v => .ok v
    | _ => .error .keyError
  | _, _ => .error .typeError

/-- The shared state object of `CareerState.__init__` (src/agent.py
lines 57-65): the eight predeclared fields, each initialised to `None`
(`PyVal.pyNone` here), plus `extra_attrs`, the instance attributes a
`setattr` on a non-field name would create (shadowing a class attribute
such as the `update_state` method). -/
structure CareerState where
  interest_area : PyVal
  suggested_streams : PyVal
  user_location : PyVal
  target_stream : PyVal
  college_results : PyVal
  criteria_details : PyVal
  reviewer_notes : PyVal
  final_summary : PyVal
  extra_attrs : List (String × PyVal)
deriving Repr, DecidableEq

/-- `CareerState()`: all eight fields set to `None`, no extra instance
attributes. -/
def CareerState.init : CareerState :=
  ⟨.pyNone, .pyNone, .pyNone, .pyNone, .pyNone, .pyNone, .pyNone, .pyNone, []⟩

/-- The eight predeclared field names of `CareerState`. -/
def careerFields : List String :=
  ["interest_area", "suggested_streams", "user_location", "target_stream",
   "college_results", "criteria_details", "reviewer_notes", "final_summary"]

/-- The attribute names `hasattr(self, k)` finds on a `CareerState`
instance beyond the eight data fields: the attributes of the class itself
(`update_state`, `__init__`, docstring and module metadata) and those
inherited from `object` in CPython. -/
def careerClassAttrs : List String :=
  ["update_state", "__init__", "__class__", "__delattr__", "__dict__",
   "__dir__", "__doc__", "__eq__", "__format__", "__ge__",
   "__getattribute__", "__gt__", "__hash__", "__init_subclass__", "__le__",
   "__lt__", "__module__", "__ne__", "__new__", "__qualname__",
   "__reduce__", "__reduce_ex__", "__repr__", "__setattr__", "__sizeof__",
   "__str__", "__subclasshook__", "__weakref__"]

/-- Update an association list at a key, keeping the first occurrence's
position, appending at the end if the key is absent (the behaviour of a
Python instance `__dict__` under `setattr`). -/
def updateAssoc : List (String × PyVal) → String → PyVal → List (String × PyVal)
  | [], k, v => [(k, v)]
  | (k', v') :: rest, k, v =>
    if k' = k then (k', v) :: rest else (k', v') :: updateAssoc rest k v

/-- `setattr(self, k, v)` on a `CareerState`: writing one of the eight
field names updates that field; any other name becomes (or updates) an
instance attribute in `extra_attrs`, shadowing any class attribute of the
same name. -/
def setattrS (s : CareerState) (k : String) (v : PyVal) : CareerState :=
  if k = "interest_area" then { s with interest_area := v }
  else if k = "suggested_streams" then { s with suggested_streams := v }
  else if k = "user_location" then { s with user_location := v }
  else if k = "target_stream" then { s with target_stream := v }
  else if k = "college_results" then { s with college_results := v }
  else if k = "criteria_details" then { s with criteria_details := v }
  else if k = "reviewer_notes" then { s with reviewer_notes := v }
  else if k = "final_summary" then { s with final_summary := v }
  else { s with extra_attrs := updateAssoc s.extra_attrs k v }

/-- `hasattr(self, k)` on a `CareerState`: true for the eight instance
fields set by `__init__`, for any extra instance attribute, and for every
class attribute (methods and CPython object attributes). -/
def hasattrS (s : CareerState) (k : String) : Bool :=
  careerFields.contains k || careerClassAttrs.contains k ||
    (s.extra_attrs.lookup k).isSome

/-- `CareerState.update_state(**kwargs)` (src/agent.py lines 67-74): for
each entry in order, if `hasattr(self, key)` then `setattr(self, key,
value)`, else log a warning "Attempted to set unknown state key: ...".
Returns the updated state together with the warning diagnostics emitted,
in order. -/
def update_state (s : CareerState) : List (String × PyVal) → CareerState × List String
  | [] => (s, [])
  | (k, v) :: rest =>
    if hasattrS s k then update_state (setattrS s k v) rest
    else
      let r := update_state s rest
      (r.1, ("Attempted to set unknown state key: " ++ k) :: r.2)

-- ### The seven concrete agents (src/agent.py lines 92-274)

/-- Outcome of one call to an agent's `execute(self)`: a normal return of
the result string, or a raised exception; both carry the state as it is
when `execute` finishes (mutation happens in place in the source). -/
inductive StepOutcome where
  | ret (s : CareerState) (r : String)
  | raise (s : CareerState) (e : PyErr)
deriving Repr, DecidableEq

/-- The state component of an outcome. -/
def StepOutcome.state : StepOutcome → CareerState
  | .ret s _ => s
  | .raise s _ => s

/-- The returned result string, when the step returned normally. -/
def StepOutcome.signal? : StepOutcome → Option String
  | .ret _ r => some r
  | .raise _ _ => none

/-- A pipeline step, as consumed by the orchestrator loop. -/
def Step : Type := CareerState → StepOutcome

/-- `MockAgent.execute` (lines 87-89): the abstract base raises
`NotImplementedError`. -/
def MockAgent.execute : Step := fun s => .raise s .notImplementedError

def mockInterest : String := "Biotechnology and sustainable energy"

/-- `InterestAgent.execute` (lines 95-105): writes the hard-coded mock
interest and returns `"NEXT_STATE"`. -/
def InterestAgent.execute : Step := fun s =>
  .ret (update_state s [("interest_area", .pyStr mockInterest)]).1 "NEXT_STATE"

def mockStreams : String :=
  "1. Applied Biological Sciences (Focus on Bio-engineering), " ++
  "2. Environmental Science and Policy, " ++
  "3. Chemical Engineering with a focus on Renewable Fuels."

/-- `StreamResearchAgent.execute` (lines 111-133): returns
`"ERROR_STATE"` if `interest_area` is falsy; otherwise builds a search
query, writes the mock streams and returns `"AWAIT_SELECTION"`. -/
def StreamResearchAgent.execute : Step := fun s =>
  if !truthy s.interest_area then .ret s "ERROR_STATE"
  else
    let _search_query :=
      "3 best high school and college educational streams for interest in "
        ++ pyStrOf s.interest_area
    .ret (update_state s [("suggested_streams", .pyStr mockStreams)]).1 "AWAIT_SELECTION"

def mockLocation : List (String × String) := [("state", "California"), ("city", "Berkeley")]

def mockSelection : String := "Applied Biological Sciences (Focus on Bio-engineering)"

/-- `LocationAgent.execute` (lines 139-151): no validation of
`suggested_streams` (it is only logged); writes the mock location and
selection and returns `"NEXT_STATE"`. -/
def LocationAgent.execute : Step := fun s =>
  .ret (update_state s
    [("user_location", .pyDict mockLocation),
     ("target_stream", .pyStr mockSelection)]).1 "NEXT_STATE"

def mockColleges : String :=
  "1. University of California, Berkeley (Bioengineering), " ++
  "2. Stanford University (Sustainable Science and Tech), " ++
  "3. UC Davis (Applied Biology)."

/-- `CollegeResearchAgent.execute` (lines 157-182): returns
`"ERROR_STATE"` if `target_stream` or `user_location` is falsy; otherwise
builds the query (subscripting the location dict, which can raise), writes
the mock colleges and returns `"NEXT_STATE"`. -/
def CollegeResearchAgent.execute : Step := fun s =>
  if !truthy s.target_stream || !truthy s.user_location then
    .ret s "ERROR_STATE"
  else
    match subscript s.user_location "city" with
    | .error e => .raise s e
    | .ok city =>
      match subscript s.user_location "state" with
      | .error e => .raise s e
      | .ok st =>
        let _search_query :=
          "Top 3 colleges in " ++ city ++ ", " ++ st ++ " for " ++
            pyStrOf s.target_stream ++ " program"
        .ret (update_state s [("college_results", .pyStr mockColleges)]).1 "NEXT_STATE"

def mockCriteria : String :=
  "UC Berkeley: GPA 4.0+, SAT/ACT Optional, essays focused on innovation. " ++
  "Stanford: Extremely selective, requires two recommendation letters, unique project portfolio. " ++
  "UC Davis: Minimum GPA 3.5, emphasis on high school science courses."

/-- `CriteriaAgent.execute` (lines 188-211): returns `"ERROR_STATE"` if
`college_results` or `target_stream` is falsy; otherwise writes the mock
criteria and returns `"NEXT_STATE"` (its two search queries are constant
strings). -/
def CriteriaAgent.execute : Step := fun s =>
  if !truthy s.college_results || !truthy s.target_stream then
    .ret s "ERROR_STATE"
  else
    let _search_query_1 := "Admission criteria and process for UC Berkeley Bioengineering"
    let _search_query_2 := "Admission criteria and process for Stanford Sustainable Science"
    .ret (update_state s [("criteria_details", .pyStr mockCriteria)]).1 "NEXT_STATE"

def mockReviewNotes : String :=
  "All data appears consistent. The suggested streams align with " ++ pyQuote ++
  "Biotechnology and sustainable energy" ++ pyQuote ++ ". " ++
  "College names are accurately matched to the location and target stream. " ++
  "The criteria are specific and look accurate based on general knowledge of these institutions."

/-- `ReviewerAgent.execute` (lines 217-244): gathers the collected data
(no validation of any of it), writes the mock review notes and returns
`"NEXT_STATE"`. -/
def ReviewerAgent.execute : Step := fun s =>
  let _data_to_review : List (String × PyVal) :=
    [("interest", s.interest_area), ("streams", s.suggested_streams),
     ("location", s.user_location), ("colleges", s.college_results),
     ("criteria", s.criteria_details)]
  .ret (update_state s [("reviewer_notes", .pyStr mockReviewNotes)]).1 "NEXT_STATE"

/-- The body of the f-string of `SummaryAgent.execute` (lines 252-271),
with the nine interpolation slots in source order (`target` is
interpolated twice). -/
def mkFinalSummary (interest target streams city st colleges criteria notes : String) : String :=
  "\n        --- Career Builder Helper Summary ---\n\n        **User Interest:** "
    ++ interest
    ++ "\n\n        **Selected Stream:** " ++ target
    ++ " (from the initial suggestions: " ++ streams
    ++ ")\n\n        **Target Location:** " ++ city ++ ", " ++ st
    ++ "\n\n        **Top 3 College Options for " ++ target
    ++ ":**\n        " ++ colleges
    ++ "\n\n        **Admission Criteria & Process Overview:**\n        " ++ criteria
    ++ "\n\n        **Reviewer Note (Validation):**\n        " ++ notes
    ++ "\n\n        This detailed plan provides a robust starting point for your education journey.\n        "

/-- `SummaryAgent.execute` (lines 250-274): composes the final summary
f-string; the interpolations `user_location['city']` and
`user_location['state']` subscript the location value and raise when it is
`None` (interpolations are evaluated left to right, so the `'city'`
subscript is the first fault site). On success it writes `final_summary`
and returns `"FLOW_COMPLETE"`. -/
def SummaryAgent.execute : Step := fun s =>
  match subscript s.user_location "city" with
  | .error e => .raise s e
  | .ok city =>
    match subscript s.user_location "state" with
    | .error e => .raise s e
    | .ok st =>
      let final_summary :=
        mkFinalSummary (pyStrOf s.interest_area) (pyStrOf s.target_stream)
          (pyStrOf s.suggested_streams) city st (pyStrOf s.college_results)
          (pyStrOf s.criteria_details) (pyStrOf s.reviewer_notes)
      .ret (update_state s [("final_summary", .pyStr final_summary)]).1 "FLOW_COMPLETE"

-- ### Orchestrator loop (src/agent.py lines 279-324)

/-- Machine states of the orchestrator, as the spec names them. -/
inductive MachineState where
  | RUNNING (cursor : Nat)
  | HALTED_SUCCESS
  | HALTED_ERROR
deriving Repr, DecidableEq

/-- Result of running the orchestrator loop: a halt with final machine
state, final shared state and the list of executed step indices in order;
or fuel exhaustion (the embedding's image of the loop not terminating,
possible only when a step returns a string outside the four recognised
signals, in which case the Python `while` loop spins forever on the same
index). -/
inductive RunResult where
  | halted (m : MachineState) (s : CareerState) (executed : List Nat)
  | fuelOut (s : CareerState) (executed : List Nat)
deriving Repr, DecidableEq

/-- The `while current_agent_index < len(agent_sequence)` loop (lines
302-322), from cursor `i`: executes `agent.execute()` inside the
`try`/`except` boundary; `"FLOW_COMPLETE"` breaks as success,
`"ERROR_STATE"` breaks as error, `"NEXT_STATE"`/`"AWAIT_SELECTION"`
advance the cursor, any other string leaves the cursor unchanged (the loop
re-executes the same agent), and a raised exception is caught, logged
critical and breaks as error. Falling out of the loop condition halts as
success. -/
def runFrom (steps : List Step) : Nat → Nat → CareerState → List Nat → RunResult
  | 0, _, s, tr => .fuelOut s tr
  | fuel + 1, i, s, tr =>
    if h : i < steps.length then
      match steps.get ⟨i, h⟩ s with
      | .raise s' _ => .halted .HALTED_ERROR s' (tr ++ [i])
      | .ret s' r =>
        if r = "FLOW_COMPLETE" then .halted .HALTED_SUCCESS s' (tr ++ [i])
        else if r = "ERROR_STATE" then .halted .HALTED_ERROR s' (tr ++ [i])
        else if r = "NEXT_STATE" ∨ r = "AWAIT_SELECTION" then
          runFrom steps fuel (i + 1) s' (tr ++ [i])
        else runFrom steps fuel i s' (tr ++ [i])
    else .halted .HALTED_SUCCESS s tr

/-- The agent sequence of `run_career_builder_helper` (lines 287-295). -/
def agent_sequence : List Step :=
  [InterestAgent.execute, StreamResearchAgent.execute, LocationAgent.execute,
   CollegeResearchAgent.execute, CriteriaAgent.execute, ReviewerAgent.execute,
   SummaryAgent.execute]

/-- The run of `run_career_builder_helper` (lines 279-324): the loop from
cursor 0 on a fresh `CareerState`, with enough fuel for the whole
sequence. -/
def runResult : RunResult :=
  runFrom agent_sequence (agent_sequence.length + 1) 0 CareerState.init []

/-- The shared state when the loop of `run_career_builder_helper` has
finished. -/
def finalState : CareerState :=
  match runResult with
  | .halted _ s _ => s
  | .fuelOut s _ => s

/-- The final machine state of the run of `run_career_builder_helper`
(`none` would mean the loop spun out of fuel, which the theorems rule
out). -/
def finalMachine : Option MachineState :=
  match runResult with
  | .halted m _ _ => some m
  | .fuelOut _ _ => none

/-- The abort notice of line 324. -/
def abortNotice : String := "\nFlow aborted. Check logs for details."

/-- `print(adk_state.final_summary or "\nFlow aborted. Check logs for
details.")` (line 324): Python `a or b` yields `a` when truthy, else `b`,
and `print` renders it with `str`. -/
def printedOutput (s : CareerState) : String :=
  if truthy s.final_summary then pyStrOf s.final_summary else abortNotice

/-- What the run of `run_career_builder_helper` writes to stdout. -/
def printed : String := printedOutput finalState

-- ### Retry configuration and the RetryPolicy algorithm

/-- The shape of `types.HttpRetryOptions` as the program constructs it
(src/agent.py lines 26-31): keyword arguments `attempts`, `exp_base`,
`initial_delay`, `http_status_codes`. -/
structure HttpRetryOptions where
  attempts : Nat
  exp_base : Nat
  initial_delay : Nat
  http_status_codes : List Nat
deriving Repr, DecidableEq

/-- The retry options object constructed inside `setup_adk_environment`
(src/agent.py lines 26-31). (The constructed object is then discarded:
the function's returned mapping carries only the placeholder string
`"HttpRetryOptions_Config"`.) -/
def http_retry_options : HttpRetryOptions :=
  ⟨5, 7, 1, [429, 500, 503, 504]⟩

/-- The spec's words for the default RetryPolicy configuration (spec §6):
maximum attempts = 5, exponential base = 7, initial delay = 1 time unit,
retryable codes = 429, 500, 503, 504. Stated separately from
`http_retry_options` so the two can be compared (claim C9). -/
def specDefaultRetryPolicy : HttpRetryOptions :=
  ⟨5, 7, 1, [429, 500, 503, 504]⟩

/-- A failure returned by the external search tool, carrying its
classification code (spec §6). -/
structure Failure where
  code : Nat
deriving Repr, DecidableEq

/-- Result of `execute_with_retry`: success, or a `FatalExternalError`
tagged with the number of attempts made (spec §4.2). -/
inductive RetryOutcome (T : Type) where
  | ok (v : T)
  | fatalExternalError (f : Failure) (attemptsMade : Nat)
deriving Repr, DecidableEq

/-- Modelled from the spec: the attempt loop of
`RetryPolicy.execute_with_retry` (spec §4.2). The repository itself only
constructs the retry configuration (src/agent.py lines 26-31) and never
uses it — the retry algorithm lives in the external `google.genai`
library, outside src/ — so the algorithm is taken from the spec's text:
attempt the operation; on success return; on a failure whose code is in
the retryable set while attempts remain, wait
`initial_delay * exp_base ^ attempt_index` and retry; otherwise return
`FatalExternalError` tagged with the number of attempts made. `op i` is
the outcome of the 0-based attempt `i`; `fuel` is the structural-recursion
budget: the caller passes `cfg.attempts`, and the `idx + 1 < cfg.attempts`
guard preserves `idx + fuel = cfg.attempts`, making the zero-fuel branch
unreachable whenever `cfg.attempts` is at least 1; the returned triple is
(result, attempts made, total wait). -/
def retryLoop {T : Type} (cfg : HttpRetryOptions) (op : Nat → Except Failure T) :
    Nat → Nat → Nat → RetryOutcome T × Nat × Nat
  | 0, idx, waited => (.fatalExternalError ⟨0⟩ idx, idx, waited)
  | fuel + 1, idx, waited =>
    match op idx with
    | .ok v => (.ok v, idx + 1, waited)
    | .error f =>
      if cfg.http_status_codes.contains f.code && decide (idx + 1 < cfg.attempts) then
        retryLoop cfg op fuel (idx + 1) (waited + cfg.initial_delay * cfg.exp_base ^ idx)
      else (.fatalExternalError f (idx + 1), idx + 1, waited)

/-- Modelled from the spec: `RetryPolicy.execute_with_retry` (spec §4.2).
Each call starts its own attempt counter (and accumulated wait) at
zero. -/
def execute_with_retry {T : Type} (cfg : HttpRetryOptions)
    (op : Nat → Except Failure T) : RetryOutcome T × Nat × Nat :=
  retryLoop cfg op cfg.attempts 0 0

-- ### Simple concrete steps, used to instantiate the orchestrator theorems

/-- A step that always advances the pipeline. -/
def demoContinueStep : Step := fun s => .ret s "NEXT_STATE"

/-- A step that always reports an error signal. -/
def demoErrorStep : Step := fun s => .ret s "ERROR_STATE"

/-- A step that always reports completion. -/
def demoCompleteStep : Step := fun s => .ret s "FLOW_COMPLETE"

/-- A step that always raises. -/
def demoRaiseStep : Step := fun s => .raise s .typeError

-- ### Lemmas about the state object

theorem lookup_cons_pair (k' k : String) (v : PyVal) (l : List (String × PyVal)) :
    List.lookup k' ((k, v) :: l) = if k' = k then some v else List.lookup k' l := by
  by_cases h : k' = k
  · rw [if_pos h]
    rw [List.lookup]
    rw [show (k' == k) = true from by simp [h]]
  · rw [if_neg h]
    rw [List.lookup]
    rw [show (k' == k) = false from by simp [h]]

theorem lookup_nil_pv (k' : String) :
    List.lookup k' ([] : List (String × PyVal)) = none := rfl

theorem lookup_updateAssoc (l : List (String × PyVal)) (k : String) (v : PyVal)
    (k' : String) :
    (updateAssoc l k v).lookup k' = if k' = k then some v else l.lookup k' := by
  induction l with
  | nil =>
    by_cases h : k' = k <;> simp [updateAssoc, lookup_cons_pair, lookup_nil_pv, h]
  | cons hd tl ih =>
    obtain ⟨k0, v0⟩ := hd
    unfold updateAssoc
    by_cases h0 : k0 = k
    · rw [if_pos h0]
      subst h0
      by_cases h : k' = k0 <;> simp [lookup_cons_pair, h]
    · rw [if_neg h0]
      by_cases h1 : k' = k0
      · have h : ¬k' = k := fun hc => h0 (h1.symm.trans hc)
        simp [lookup_cons_pair, h1, h, h0]
      · simp [lookup_cons_pair, h1, ih]

/-- `setattrS` never changes which attribute names exist, provided the
written name already exists (which is exactly the guard `update_state`
checks before calling it). -/
theorem hasattrS_setattrS (s : CareerState) (k : String) (v : PyVal)
    (h : hasattrS s k = true) (k' : String) :
    hasattrS (setattrS s k v) k' = hasattrS s k' := by
  unfold setattrS
  split_ifs with h1 h2 h3 h4 h5 h6 h7 h8
  · rfl
  · rfl
  · rfl
  · rfl
  · rfl
  · rfl
  · rfl
  · rfl
  · unfold hasattrS
    simp only [lookup_updateAssoc]
    by_cases hk : k' = k
    · subst hk
      have hf : careerFields.contains k' = false := by
        simp [careerFields, h1, h2, h3, h4, h5, h6, h7, h8]
      unfold hasattrS at h
      rw [hf] at h ⊢
      simp only [Bool.false_or] at h ⊢
      simp at h ⊢
      exact h
    · simp [hk]

/-- Characterisation of `update_state`: the resulting state applies, in
order, exactly the entries whose names pass the `hasattr` check of the
state at call time, and one "unknown state key" diagnostic is emitted per
rejected entry, in order. -/
theorem update_state_characterisation (kwargs : List (String × PyVal)) :
    ∀ s : CareerState,
    update_state s kwargs =
      ((kwargs.filter (fun kv => hasattrS s kv.1)).foldl
          (fun t kv => setattrS t kv.1 kv.2) s,
        (kwargs.filter (fun kv => !hasattrS s kv.1)).map
          (fun kv => "Attempted to set unknown state key: " ++ kv.1)) := by
  induction kwargs with
  | nil =>
    intro s
    simp [update_state]
  | cons hd rest ih =>
    intro s
    obtain ⟨k, v⟩ := hd
    by_cases hk : hasattrS s k = true
    · simp only [update_state]
      rw [if_pos hk]
      rw [ih (setattrS s k v)]
      rw [List.filter_congr (fun kv _ => hasattrS_setattrS s k v hk kv.1)]
      rw [List.filter_congr
        (fun (kv : String × PyVal) _ =>
          show (!hasattrS (setattrS s k v) kv.1) = (!hasattrS s kv.1) from by
            rw [hasattrS_setattrS s k v hk kv.1])]
      simp [List.filter_cons, hk]
    · have hkf : hasattrS s k = false := by simpa using hk
      simp only [update_state]
      rw [if_neg hk]
      rw [ih s]
      simp [List.filter_cons, hkf]

-- ### Lemmas about the orchestrator loop

/-- A step that, on every state, returns one of the two strings the
orchestrator treats as "advance to the next agent" (`CONTINUE` and
`AWAIT_EXTERNAL_INPUT` in the spec's vocabulary). -/
def continuesAlways (f : Step) : Prop :=
  ∀ s, ∃ s', f s = .ret s' "NEXT_STATE" ∨ f s = .ret s' "AWAIT_SELECTION"

/-- A step that, on every state, returns the orchestrator's error
signal. -/
def errorsAlways (f : Step) : Prop :=
  ∀ s, ∃ s', f s = .ret s' "ERROR_STATE"

/-- A step that, on every state, returns the orchestrator's completion
signal. -/
def completesAlways (f : Step) : Prop :=
  ∀ s, ∃ s', f s = .ret s' "FLOW_COMPLETE"

/-- A step whose outcome is always either a raised fault or one of the
four members of the spec's `ControlSignal`. -/
def returnsControlSignal (f : Step) : Prop :=
  ∀ s, (∃ s' e, f s = .raise s' e) ∨
    (∃ s' r, f s = .ret s' r ∧
      (r = "NEXT_STATE" ∨ r = "AWAIT_SELECTION" ∨ r = "ERROR_STATE" ∨ r = "FLOW_COMPLETE"))

/-- The orchestrator's fault boundary: a step that raises makes the loop
halt as an error at that step, with the step recorded as executed. -/
theorem runFrom_raise (steps : List Step) (fuel i : Nat) (s : CareerState)
    (tr : List Nat) (hi : i < steps.length) (s' : CareerState) (e : PyErr)
    (hstep : steps.get ⟨i, hi⟩ s = .raise s' e) :
    runFrom steps (fuel + 1) i s tr = .halted .HALTED_ERROR s' (tr ++ [i]) := by
  simp only [runFrom]
  rw [dif_pos hi, hstep]

/-- Unfolding the loop one iteration when the step returns normally. -/
theorem runFrom_step_ret (steps : List Step) (fuel i : Nat) (s : CareerState)
    (tr : List Nat) (hi : i < steps.length) (s' : CareerState) (r : String)
    (hstep : steps.get ⟨i, hi⟩ s = .ret s' r) :
    runFrom steps (fuel + 1) i s tr =
      (if r = "FLOW_COMPLETE" then .halted .HALTED_SUCCESS s' (tr ++ [i])
       else if r = "ERROR_STATE" then .halted .HALTED_ERROR s' (tr ++ [i])
       else if r = "NEXT_STATE" ∨ r = "AWAIT_SELECTION" then
         runFrom steps fuel (i + 1) s' (tr ++ [i])
       else runFrom steps fuel i s' (tr ++ [i])) := by
  simp only [runFrom]
  rw [dif_pos hi, hstep]

/-- Falling out of the loop condition (cursor at or past the end) halts
as success without executing anything. -/
theorem runFrom_out (steps : List Step) (fuel i : Nat) (s : CareerState)
    (tr : List Nat) (hi : ¬i < steps.length) :
    runFrom steps (fuel + 1) i s tr = .halted .HALTED_SUCCESS s tr := by
  simp only [runFrom]
  rw [dif_neg hi]

/-- If every step of the sequence yields a control signal or raises, the
loop halts (never exhausts its fuel) and executes at most
`steps.length - i` further steps. -/
theorem runFrom_terminates (steps : List Step)
    (hsig : ∀ j (hj : j < steps.length), returnsControlSignal (steps.get ⟨j, hj⟩)) :
    ∀ (n i : Nat) (s : CareerState) (tr : List Nat), steps.length ≤ i + n →
      ∃ m s' tr', runFrom steps (n + 1) i s tr = .halted m s' tr' ∧
        tr'.length ≤ tr.length + n := by
  intro n
  induction n with
  | zero =>
    intro i s tr hlen
    have hni : ¬i < steps.length := by omega
    exact ⟨.HALTED_SUCCESS, s, tr, runFrom_out steps 0 i s tr hni, by omega⟩
  | succ n ihn =>
    intro i s tr hlen
    by_cases hi : i < steps.length
    · rcases hsig i hi s with ⟨s', e, hstep⟩ | ⟨s', r, hstep, hr⟩
      · exact ⟨.HALTED_ERROR, s', tr ++ [i],
          runFrom_raise steps (n + 1) i s tr hi s' e hstep,
          by simp only [List.length_append, List.length_cons, List.length_nil]; omega⟩
      · rcases hr with hr | hr | hr | hr
        all_goals subst hr
        · obtain ⟨m, s'', tr', hrun, hlen'⟩ := ihn (i + 1) s' (tr ++ [i]) (by omega)
          refine ⟨m, s'', tr', ?_, ?_⟩
          · rw [runFrom_step_ret steps (n + 1) i s tr hi s' _ hstep]
            rw [if_neg (by decide), if_neg (by decide), if_pos (Or.inl rfl)]
            exact hrun
          · simp only [List.length_append, List.length_cons, List.length_nil] at hlen'
            omega
        · obtain ⟨m, s'', tr', hrun, hlen'⟩ := ihn (i + 1) s' (tr ++ [i]) (by omega)
          refine ⟨m, s'', tr', ?_, ?_⟩
          · rw [runFrom_step_ret steps (n + 1) i s tr hi s' _ hstep]
            rw [if_neg (by decide), if_neg (by decide), if_pos (Or.inr rfl)]
            exact hrun
          · simp only [List.length_append, List.length_cons, List.length_nil] at hlen'
            omega
        · refine ⟨.HALTED_ERROR, s', tr ++ [i], ?_,
            by simp only [List.length_append, List.length_cons, List.length_nil]; omega⟩
          rw [runFrom_step_ret steps (n + 1) i s tr hi s' _ hstep]
          rw [if_neg (by decide), if_pos rfl]
        · refine ⟨.HALTED_SUCCESS, s', tr ++ [i], ?_,
            by simp only [List.length_append, List.length_cons, List.length_nil]; omega⟩
          rw [runFrom_step_ret steps (n + 1) i s tr hi s' _ hstep]
          rw [if_pos rfl]
    · exact ⟨.HALTED_SUCCESS, s, tr, runFrom_out steps (n + 1) i s tr hi, by omega⟩

/-- If every step strictly before position `k` always continues (returns
`"NEXT_STATE"` or `"AWAIT_SELECTION"`) and the step at `k` always returns
the halting signal `r` (either `"ERROR_STATE"`, halting as
`HALTED_ERROR`, or `"FLOW_COMPLETE"`, halting as `HALTED_SUCCESS`), then
from cursor `i ≤ k` the loop executes exactly the steps `i, i+1, ..., k`
and halts accordingly. -/
theorem runFrom_cont_then_halt (steps : List Step) (k : Nat) (hk : k < steps.length)
    (r : String) (m : MachineState)
    (hrm : (r = "ERROR_STATE" ∧ m = .HALTED_ERROR) ∨
      (r = "FLOW_COMPLETE" ∧ m = .HALTED_SUCCESS))
    (hlast : ∀ s, ∃ s', steps.get ⟨k, hk⟩ s = .ret s' r) :
    ∀ (d i : Nat) (s : CareerState) (tr : List Nat) (fuel : Nat),
      i + d = k → d + 1 ≤ fuel →
      (∀ j (hj : j < steps.length), i ≤ j → j < k → continuesAlways (steps.get ⟨j, hj⟩)) →
      ∃ s', runFrom steps fuel i s tr = .halted m s' (tr ++ List.range' i (d + 1)) := by
  intro d
  induction d with
  | zero =>
    intro i s tr fuel hik hfuel hcont
    obtain ⟨f, rfl⟩ : ∃ f, fuel = f + 1 := ⟨fuel - 1, by omega⟩
    have hik' : i = k := by omega
    subst hik'
    obtain ⟨s', hstep⟩ := hlast s
    refine ⟨s', ?_⟩
    rw [runFrom_step_ret steps f i s tr hk s' r hstep]
    rcases hrm with ⟨hr, hm⟩ | ⟨hr, hm⟩
    · subst hr
      subst hm
      rw [if_neg (by decide), if_pos rfl]
      simp [List.range']
    · subst hr
      subst hm
      rw [if_pos rfl]
      simp [List.range']
  | succ d ihd =>
    intro i s tr fuel hik hfuel hcont
    obtain ⟨f, rfl⟩ : ∃ f, fuel = f + 1 := ⟨fuel - 1, by omega⟩
    have hi : i < steps.length := by omega
    obtain ⟨s', hor⟩ := hcont i hi (le_refl i) (by omega) s
    obtain ⟨s'', hrun⟩ : ∃ s'', runFrom steps f (i + 1) s'
        (tr ++ [i]) = .halted m s'' ((tr ++ [i]) ++ List.range' (i + 1) (d + 1)) := by
      apply ihd (i + 1) s' (tr ++ [i]) f (by omega) (by omega)
      intro j hj hij hjk
      exact hcont j hj (by omega) hjk
    have htr : (tr ++ [i]) ++ List.range' (i + 1) (d + 1) =
        tr ++ List.range' i (d + 1 + 1) := by
      rw [List.range'_succ i (d + 1) 1]
      simp
    rcases hor with hstep | hstep
    · refine ⟨s'', ?_⟩
      rw [runFrom_step_ret steps f i s tr hi s' _ hstep]
      rw [if_neg (by decide), if_neg (by decide), if_pos (Or.inl rfl)]
      rw [hrun, htr]
    · refine ⟨s'', ?_⟩
      rw [runFrom_step_ret steps f i s tr hi s' _ hstep]
      rw [if_neg (by decide), if_neg (by decide), if_pos (Or.inr rfl)]
      rw [hrun, htr]

-- ### Lemmas about the retry policy

/-- Unfolding one failing attempt of the retry loop. -/
theorem retryLoop_succ_error {T : Type} (cfg : HttpRetryOptions)
    (op : Nat → Except Failure T) (fuel idx waited : Nat) (f : Failure)
    (hopf : op idx = .error f) :
    retryLoop cfg op (fuel + 1) idx waited =
      if (cfg.http_status_codes.contains f.code && decide (idx + 1 < cfg.attempts)) = true
      then retryLoop cfg op fuel (idx + 1) (waited + cfg.initial_delay * cfg.exp_base ^ idx)
      else (.fatalExternalError f (idx + 1), idx + 1, waited) := by
  rw [retryLoop, hopf]

/-- If every attempt fails with a retryable code, the loop from attempt
`idx` (with the fuel invariant `idx + fuel = attempts`) makes all the
remaining attempts, accumulating one wait of
`initial_delay * exp_base ^ i` for each retry boundary
`i ∈ [idx, attempts - 1)`, and ends in a `FatalExternalError` tagged with
`attempts`. -/
theorem retryLoop_all_fail {T : Type} (cfg : HttpRetryOptions)
    (op : Nat → Except Failure T)
    (hop : ∀ i, ∃ f, op i = .error f ∧ cfg.http_status_codes.contains f.code = true) :
    ∀ (fuel idx waited : Nat), idx + fuel = cfg.attempts → 1 ≤ fuel →
      ∃ f, retryLoop cfg op fuel idx waited =
        (.fatalExternalError f cfg.attempts, cfg.attempts,
          waited + Finset.sum (Finset.Ico idx (cfg.attempts - 1))
            (fun i => cfg.initial_delay * cfg.exp_base ^ i)) ∧
        cfg.http_status_codes.contains f.code = true := by
  intro fuel
  induction fuel with
  | zero =>
    intro idx waited hinv hfuel
    omega
  | succ n ihn =>
    intro idx waited hinv hfuel
    obtain ⟨f, hopf, hcode⟩ := hop idx
    by_cases hlast : idx + 1 < cfg.attempts
    · have hn : 1 ≤ n := by omega
      obtain ⟨m, rfl⟩ : ∃ m, n = m + 1 := ⟨n - 1, by omega⟩
      obtain ⟨f', hrec, hcode'⟩ := ihn (idx + 1)
        (waited + cfg.initial_delay * cfg.exp_base ^ idx) (by omega) (by omega)
      refine ⟨f', ?_, hcode'⟩
      rw [retryLoop_succ_error cfg op (m + 1) idx waited f hopf]
      rw [if_pos (by simp [hlast]; simpa using hcode)]
      rw [hrec]
      have hsum : waited + cfg.initial_delay * cfg.exp_base ^ idx +
          Finset.sum (Finset.Ico (idx + 1) (cfg.attempts - 1))
            (fun i => cfg.initial_delay * cfg.exp_base ^ i) =
          waited + Finset.sum (Finset.Ico idx (cfg.attempts - 1))
            (fun i => cfg.initial_delay * cfg.exp_base ^ i) := by
        rw [Finset.sum_eq_sum_Ico_succ_bot (by omega : idx < cfg.attempts - 1)]
        ring
      rw [hsum]
    · refine ⟨f, ?_, hcode⟩
      rw [retryLoop_succ_error cfg op n idx waited f hopf]
      rw [if_neg (by simp [hlast])]
      have hidx : idx + 1 = cfg.attempts := by omega
      have hsum : Finset.sum (Finset.Ico idx (cfg.attempts - 1))
          (fun i => cfg.initial_delay * cfg.exp_base ^ i) = 0 := by
        have : cfg.attempts - 1 = idx := by omega
        rw [this]
        simp
      rw [hidx, hsum]
      simp

-- ### Claims

/-- C1, counterexample: the entry name `"update_state"` is not one of the
eight predeclared field names, yet `update_state` applies it (it passes
the `hasattr` check because it names the method), mutating the state
object and emitting no diagnostic — contradicting the claim that any
entry whose name is not a predeclared field is rejected without mutation,
with a diagnostic. -/
theorem C1_counterexample :
    (update_state CareerState.init [("update_state", PyVal.pyStr "broken")]).1
        ≠ CareerState.init ∧
    (update_state CareerState.init [("update_state", PyVal.pyStr "broken")]).2 = [] ∧
    careerFields.contains "update_state" = false := by
  exact ⟨by decide, by decide, by decide⟩

/-- C1, amended: in every call to `CareerState.update_state`, an entry is
applied exactly when its name is an existing attribute of the state
object — one of the eight predeclared fields, an extra instance
attribute, or a class attribute name such as `update_state` itself — and
every other entry is rejected without touching the state, with one
"unknown state key" diagnostic per rejected entry; the state after the
call is the state before the call with exactly the accepted entries
applied in order. -/
theorem C1_update_state_attribute_names (s : CareerState)
    (kwargs : List (String × PyVal)) :
    update_state s kwargs =
      ((kwargs.filter (fun kv => hasattrS s kv.1)).foldl
          (fun t kv => setattrS t kv.1 kv.2) s,
        (kwargs.filter (fun kv => !hasattrS s kv.1)).map
          (fun kv => "Attempted to set unknown state key: " ++ kv.1)) :=
  update_state_characterisation kwargs s

/-- C2, counterexample: on a state whose `user_location` is unset,
`SummaryAgent.execute` raises a `TypeError` (from subscripting `None`)
instead of returning a `ControlSignal` — contradicting the claim that
every step's `execute` converts internal faults into an `ERROR` return. -/
theorem C2_counterexample :
    SummaryAgent.execute CareerState.init
      = .raise CareerState.init PyErr.typeError := by
  decide

/-- C2, amended: the concrete steps contain no internal fault handler,
and the no-throw guarantee does not hold for all of them.
`SummaryAgent.execute` raises a `TypeError` to its caller when
`user_location` is absent, and `CollegeResearchAgent.execute` raises a
`TypeError` when `user_location` holds a truthy non-dict value;
`InterestAgent`, `StreamResearchAgent`, `LocationAgent`, `CriteriaAgent`
and `ReviewerAgent` return a result string without raising on every
state. -/
theorem C2_step_fault_behaviour :
    (SummaryAgent.execute CareerState.init
        = .raise CareerState.init PyErr.typeError) ∧
    (∀ s, ∃ s', InterestAgent.execute s = .ret s' "NEXT_STATE") ∧
    (∀ s, ∃ s' r, StreamResearchAgent.execute s = .ret s' r) ∧
    (∀ s, ∃ s', LocationAgent.execute s = .ret s' "NEXT_STATE") ∧
    (∀ s, ∃ s' r, CriteriaAgent.execute s = .ret s' r) ∧
    (∀ s, ∃ s' r, ReviewerAgent.execute s = .ret s' r) ∧
    (CollegeResearchAgent.execute
        ⟨.pyNone, .pyNone, .pyStr "Berkeley", .pyStr "Biology", .pyNone,
          .pyNone, .pyNone, .pyNone, []⟩
      = .raise
        ⟨.pyNone, .pyNone, .pyStr "Berkeley", .pyStr "Biology", .pyNone,
          .pyNone, .pyNone, .pyNone, []⟩ PyErr.typeError) := by
  refine ⟨by decide, fun s => ⟨_, rfl⟩, fun s => ?_, fun s => ⟨_, rfl⟩,
    fun s => ?_, fun s => ⟨_, _, rfl⟩, by decide⟩
  · cases h : truthy s.interest_area <;>
      simp [StreamResearchAgent.execute, h]
  · cases h1 : truthy s.college_results <;>
      cases h2 : truthy s.target_stream <;>
      simp [CriteriaAgent.execute, h1, h2]

/-- C3, counterexample: on the fresh state — where every field
`ReviewerAgent` reads is still absent — `ReviewerAgent.execute` performs
its work anyway: it writes `reviewer_notes` and returns `"NEXT_STATE"`
instead of logging a deficiency and returning the error signal, so the
validate-required-fields contract is not uniform across the concrete
agents. -/
theorem C3_counterexample :
    (ReviewerAgent.execute CareerState.init).signal? = some "NEXT_STATE" ∧
    (ReviewerAgent.execute CareerState.init).state.reviewer_notes
        = PyVal.pyStr mockReviewNotes ∧
    CareerState.init.criteria_details = PyVal.pyNone :=
  ⟨rfl, rfl, rfl⟩

/-- C3, amended: only the three research agents validate their inputs:
`StreamResearchAgent`, `CollegeResearchAgent` and `CriteriaAgent` return
`"ERROR_STATE"` without writing any field when a field they require is
falsy; `InterestAgent` requires no field and always writes its output and
continues; `LocationAgent` and `ReviewerAgent` perform no validation and
write their outputs and return `"NEXT_STATE"` on every state; and
`SummaryAgent` performs no presence validation either — on the fresh
state it raises instead of returning the error signal. -/
theorem C3_per_agent_validation :
    (∀ s, truthy s.interest_area = false →
      StreamResearchAgent.execute s = .ret s "ERROR_STATE") ∧
    (∀ s, truthy s.target_stream = false ∨ truthy s.user_location = false →
      CollegeResearchAgent.execute s = .ret s "ERROR_STATE") ∧
    (∀ s, truthy s.college_results = false ∨ truthy s.target_stream = false →
      CriteriaAgent.execute s = .ret s "ERROR_STATE") ∧
    (∀ s, ∃ s', LocationAgent.execute s = .ret s' "NEXT_STATE" ∧
      s'.user_location = .pyDict mockLocation ∧
      s'.target_stream = .pyStr mockSelection) ∧
    (∀ s, ∃ s', ReviewerAgent.execute s = .ret s' "NEXT_STATE" ∧
      s'.reviewer_notes = .pyStr mockReviewNotes) ∧
    (∀ s, ∃ s', InterestAgent.execute s = .ret s' "NEXT_STATE" ∧
      s'.interest_area = .pyStr mockInterest) ∧
    (SummaryAgent.execute CareerState.init
      ≠ .ret CareerState.init "ERROR_STATE") := by
  refine ⟨fun s h => ?_, fun s h => ?_, fun s h => ?_,
    fun s => ⟨_, rfl, rfl, rfl⟩, fun s => ⟨_, rfl, rfl⟩,
    fun s => ⟨_, rfl, rfl⟩, by decide⟩
  · simp [StreamResearchAgent.execute, h]
  · rcases h with h | h <;> simp [CollegeResearchAgent.execute, h]
  · rcases h with h | h <;> simp [CriteriaAgent.execute, h]

/-- C3, witness: at the fresh state the three validating agents indeed
reject with the error signal, leaving the state untouched. -/
theorem C3_witness :
    StreamResearchAgent.execute CareerState.init
        = .ret CareerState.init "ERROR_STATE" ∧
    CollegeResearchAgent.execute CareerState.init
        = .ret CareerState.init "ERROR_STATE" ∧
    CriteriaAgent.execute CareerState.init
        = .ret CareerState.init "ERROR_STATE" :=
  ⟨C3_per_agent_validation.1 CareerState.init (by decide),
    C3_per_agent_validation.2.1 CareerState.init (Or.inl (by decide)),
    C3_per_agent_validation.2.2.1 CareerState.init (Or.inl (by decide))⟩

/-- C4: for every ordered sequence of steps, each of whose outcomes is
one of the four `ControlSignal` strings (or a raised fault), the
orchestrator loop — given fuel for one pass — halts, and the number of
step executions is at most the length of the sequence: on every
iteration the cursor strictly increases or the machine halts (by
completion, error, a caught fault, or the cursor reaching the end). -/
theorem C4_orchestrator_termination (steps : List Step) (s0 : CareerState)
    (hsig : ∀ j (hj : j < steps.length), returnsControlSignal (steps.get ⟨j, hj⟩)) :
    ∃ m s' tr, runFrom steps (steps.length + 1) 0 s0 [] = .halted m s' tr ∧
      tr.length ≤ steps.length := by
  obtain ⟨m, s', tr, h1, h2⟩ :=
    runFrom_terminates steps hsig steps.length 0 s0 [] (by omega)
  exact ⟨m, s', tr, h1, by simpa using h2⟩

/-- C4, witness: a one-step sequence that always continues halts after
one execution. -/
theorem C4_witness :
    ∃ m s' tr,
      runFrom [demoContinueStep] (List.length [demoContinueStep] + 1) 0
          CareerState.init [] = .halted m s' tr ∧
      tr.length ≤ List.length [demoContinueStep] :=
  C4_orchestrator_termination [demoContinueStep] CareerState.init
    (by
      intro j hj s
      have hj0 : j = 0 := by
        simp at hj
        omega
      subst hj0
      exact Or.inr ⟨s, "NEXT_STATE", rfl, Or.inl rfl⟩)

/-- C5: if steps `0..k-1` always return a continue signal
(`"NEXT_STATE"` or `"AWAIT_SELECTION"`) and step `k` always returns
`"ERROR_STATE"`, the orchestrator executes exactly steps `0` through `k`
in order — no step beyond `k` — and halts in `HALTED_ERROR`. -/
theorem C5_halt_on_error (steps : List Step) (k : Nat) (s0 : CareerState)
    (hk : k < steps.length)
    (hcont : ∀ j (hj : j < steps.length), j < k → continuesAlways (steps.get ⟨j, hj⟩))
    (herr : errorsAlways (steps.get ⟨k, hk⟩)) :
    ∃ s', runFrom steps (steps.length + 1) 0 s0 [] =
      .halted .HALTED_ERROR s' (List.range (k + 1)) := by
  obtain ⟨s', h⟩ := runFrom_cont_then_halt steps k hk "ERROR_STATE" .HALTED_ERROR
    (Or.inl ⟨rfl, rfl⟩) herr k 0 s0 [] (steps.length + 1) (by omega) (by omega)
    (fun j hj _ hjk => hcont j hj hjk)
  refine ⟨s', ?_⟩
  rw [h, List.range_eq_range']
  simp

/-- C5, witness: with one always-continuing step followed by an
always-erroring step, exactly steps 0 and 1 run and the machine halts in
error. -/
theorem C5_witness :
    ∃ s', runFrom [demoContinueStep, demoErrorStep]
        (List.length [demoContinueStep, demoErrorStep] + 1) 0
        CareerState.init [] =
      .halted .HALTED_ERROR s' (List.range (1 + 1)) :=
  C5_halt_on_error [demoContinueStep, demoErrorStep] 1 CareerState.init
    (by decide)
    (by
      intro j hj hj1 s
      have hj0 : j = 0 := by omega
      subst hj0
      exact ⟨s, Or.inl rfl⟩)
    (fun s => ⟨s, rfl⟩)

/-- C6: if steps `0..k-1` always return a continue signal and step `k`
always returns `"FLOW_COMPLETE"`, execution stops at step `k` — no step
after `k` runs, regardless of how many steps remain — and the machine
halts in `HALTED_SUCCESS`. -/
theorem C6_halt_on_complete (steps : List Step) (k : Nat) (s0 : CareerState)
    (hk : k < steps.length)
    (hcont : ∀ j (hj : j < steps.length), j < k → continuesAlways (steps.get ⟨j, hj⟩))
    (hcomp : completesAlways (steps.get ⟨k, hk⟩)) :
    ∃ s', runFrom steps (steps.length + 1) 0 s0 [] =
      .halted .HALTED_SUCCESS s' (List.range (k + 1)) := by
  obtain ⟨s', h⟩ := runFrom_cont_then_halt steps k hk "FLOW_COMPLETE" .HALTED_SUCCESS
    (Or.inr ⟨rfl, rfl⟩) hcomp k 0 s0 [] (steps.length + 1) (by omega) (by omega)
    (fun j hj _ hjk => hcont j hj hjk)
  refine ⟨s', ?_⟩
  rw [h, List.range_eq_range']
  simp

/-- C6, witness: a completing step in front of two further steps stops
execution at step 0 with success; the remaining steps never run. -/
theorem C6_witness :
    ∃ s', runFrom [demoCompleteStep, demoErrorStep, demoContinueStep]
        (List.length [demoCompleteStep, demoErrorStep, demoContinueStep] + 1) 0
        CareerState.init [] =
      .halted .HALTED_SUCCESS s' (List.range (0 + 1)) :=
  C6_halt_on_complete [demoCompleteStep, demoErrorStep, demoContinueStep] 0
    CareerState.init (by decide)
    (by
      intro j hj hj0
      omega)
    (fun s => ⟨s, rfl⟩)

/-- C7: nothing escapes the orchestrator. The actual run of
`run_career_builder_helper` halts in `HALTED_SUCCESS` and prints the full
textual final summary (the truthy `final_summary` field); in general, a
fault raised by any step is caught at the loop's boundary and halts the
run as an error with that step recorded as executed; and whenever the run
ends with no `final_summary` set (as after an error or caught-fault
halt in the concrete pipeline, whose only writer of `final_summary`
completes immediately afterwards), the caller sees exactly the abort
notice directing the operator to the logs. -/
theorem C7_orchestrator_boundary :
    (finalMachine = some .HALTED_SUCCESS ∧
      printed = pyStrOf finalState.final_summary ∧
      truthy finalState.final_summary = true) ∧
    (∀ (steps : List Step) (fuel i : Nat) (s : CareerState) (tr : List Nat)
      (hi : i < steps.length) (s' : CareerState) (e : PyErr),
      steps.get ⟨i, hi⟩ s = .raise s' e →
      runFrom steps (fuel + 1) i s tr = .halted .HALTED_ERROR s' (tr ++ [i])) ∧
    (∀ s : CareerState, truthy s.final_summary = false →
      printedOutput s = abortNotice) := by
  refine ⟨⟨by decide, ?_, by decide⟩,
    fun steps fuel i s tr hi s' e h => runFrom_raise steps fuel i s tr hi s' e h,
    fun s h => by simp [printedOutput, h]⟩
  have h : truthy finalState.final_summary = true := by decide
  show printedOutput finalState = _
  simp [printedOutput, h]

/-- C7, witness: a step that raises is caught and halts the run as an
error, and a state with no final summary prints the abort notice. -/
theorem C7_witness :
    runFrom [demoRaiseStep] 1 0 CareerState.init []
        = .halted .HALTED_ERROR CareerState.init [0] ∧
    printedOutput CareerState.init = abortNotice :=
  ⟨C7_orchestrator_boundary.2.1 [demoRaiseStep] 0 0 CareerState.init []
      (by decide) CareerState.init PyErr.typeError rfl,
    C7_orchestrator_boundary.2.2 CareerState.init (by decide)⟩

/-- C8, counterexample: under the constructed retry configuration
(5 attempts, base 7, initial delay 1) and an operation failing every
attempt with retryable code 429, `execute_with_retry` makes exactly 5
attempts but its total wait is 400 = 1 + 7 + 49 + 343 — the sum for
`i` in `0..attempts-2`, one term short of the claim's sum for `i` in
`0..attempts-1`, which equals 2801: no wait follows the final attempt. -/
theorem C8_counterexample :
    execute_with_retry http_retry_options
        (fun _ => (Except.error ⟨429⟩ : Except Failure String))
      = (.fatalExternalError ⟨429⟩ 5, 5, 400) ∧
    Finset.sum (Finset.range 5) (fun i => 1 * 7 ^ i) = 2801 ∧
    (400 : Nat) ≠ 2801 :=
  ⟨by decide, by decide, by decide⟩

/-- C8, amended: for an operation that fails on every attempt with a
retryable code, `execute_with_retry` performs exactly
`attempts` attempts, waits in total the sum of
`initial_delay * exp_base ^ i` for `i` in `0..attempts-2` (a wait occurs
only between consecutive attempts, never after the last), and returns a
`FatalExternalError` tagged with the number of attempts made; each call
starts its own attempt counter and wait accumulator at zero. -/
theorem C8_retry_exhaustion {T : Type} (cfg : HttpRetryOptions)
    (op : Nat → Except Failure T)
    (hop : ∀ i, ∃ f, op i = .error f ∧ cfg.http_status_codes.contains f.code = true)
    (hpos : 1 ≤ cfg.attempts) :
    ∃ f, execute_with_retry cfg op =
      (.fatalExternalError f cfg.attempts, cfg.attempts,
        Finset.sum (Finset.range (cfg.attempts - 1))
          (fun i => cfg.initial_delay * cfg.exp_base ^ i)) ∧
      cfg.http_status_codes.contains f.code = true := by
  obtain ⟨f, h1, h2⟩ := retryLoop_all_fail cfg op hop cfg.attempts 0 0 (by omega) hpos
  refine ⟨f, ?_, h2⟩
  rw [execute_with_retry, h1]
  rw [Finset.range_eq_Ico]
  simp

/-- C8, witness: the amended bound evaluated at the constructed
configuration and an operation that always fails with code 500. -/
theorem C8_witness :
    ∃ f, execute_with_retry http_retry_options
        (fun _ => (Except.error ⟨500⟩ : Except Failure String)) =
      (.fatalExternalError f http_retry_options.attempts,
        http_retry_options.attempts,
        Finset.sum (Finset.range (http_retry_options.attempts - 1))
          (fun i => http_retry_options.initial_delay *
            http_retry_options.exp_base ^ i)) ∧
      http_retry_options.http_status_codes.contains f.code = true :=
  C8_retry_exhaustion http_retry_options _
    (fun i => ⟨⟨500⟩, rfl, rfl⟩) (by decide)

/-- C9: the retry configuration constructed by the program matches the
spec's default RetryPolicy configuration field for field — maximum
attempts 5, exponential base 7, initial delay 1 — and its retryable
codes are exactly the set 429, 500, 503, 504. -/
theorem C9_retry_config :
    http_retry_options = specDefaultRetryPolicy ∧
    http_retry_options.attempts = 5 ∧
    http_retry_options.exp_base = 7 ∧
    http_retry_options.initial_delay = 1 ∧
    (∀ c : Nat, http_retry_options.http_status_codes.contains c = true ↔
      (c = 429 ∨ c = 500 ∨ c = 503 ∨ c = 504)) := by
  refine ⟨rfl, rfl, rfl, rfl, fun c => ?_⟩
  simp [http_retry_options]

/-- C10: the full pipeline run is deterministic — its outputs are fixed
constants. The final shared state carries exactly the hard-coded mock
values in all eight fields (interest, streams, location, selection,
colleges, criteria, reviewer notes, and the composed summary), and the
text printed to stdout is exactly that composed summary. -/
theorem C10_deterministic_run :
    finalState.interest_area = .pyStr mockInterest ∧
    finalState.suggested_streams = .pyStr mockStreams ∧
    finalState.user_location = .pyDict mockLocation ∧
    finalState.target_stream = .pyStr mockSelection ∧
    finalState.college_results = .pyStr mockColleges ∧
    finalState.criteria_details = .pyStr mockCriteria ∧
    finalState.reviewer_notes = .pyStr mockReviewNotes ∧
    finalState.final_summary = .pyStr (mkFinalSummary mockInterest mockSelection
      mockStreams "Berkeley" "California" mockColleges mockCriteria
      mockReviewNotes) ∧
    printed = mkFinalSummary mockInterest mockSelection mockStreams "Berkeley"
      "California" mockColleges mockCriteria mockReviewNotes := by
  refine ⟨rfl, rfl, rfl, rfl, rfl, rfl, rfl, rfl, ?_⟩
  have h : truthy finalState.final_summary = true := by decide
  have hsum : finalState.final_summary = PyVal.pyStr (mkFinalSummary mockInterest
      mockSelection mockStreams "Berkeley" "California" mockColleges mockCriteria
      mockReviewNotes) := rfl
  show printedOutput finalState = _
  unfold printedOutput
  rw [h]
  simp only [if_true]
  rw [hsum]
  rfl
